import Mathlib

/-!
Shallow embedding of the core of the `school_checkin` repository
(`src/lib/token-info.ts`, `src/lib/checkin-utils.ts`, `src/lib/wechat-utils.ts`,
`src/lib/email-utils.ts`, `src/lib/scheduler.ts`, `src/types/index.ts`),
together with theorems settling the frozen claims about it.

Conventions of the embedding:
* JavaScript `string | null` fields become `Option String`; `number | null`
  becomes `Option Int` (timestamps are millisecond integers well below 2^53,
  so `Int` is exact).
* JavaScript truthiness tests (`!this.token`, `!expire`, ...) are modelled by
  explicit `truthyStr` / `truthyNum` helpers: `null`/`undefined`, the empty
  string and the number `0` are falsy.
* Exceptions become `Except ErrKind _`; the error taxonomy of
  `src/types/index.ts` is collapsed to the constructors actually distinguished
  by the code under verification.
* The Redis store is modelled single-key (every call site uses the default
  key `token_info`), as a possible stored value plus failure flags for each
  client operation (`get`, `del`, connection, `set`).  The stored string is
  abstracted by its JSON-parse classification: the empty string (falsy for
  `if (!json)`), a non-empty unparseable string, or a parseable object with
  optional `token`/`expire` fields; `JSON.parse ∘ JSON.stringify` is the
  identity on such objects, which is exact for strings and integer timestamps.
-/

/-- Error taxonomy from `src/types/index.ts`, collapsed to the distinctions the
verified code paths make. -/
inductive ErrKind
  | validation
  | authentication
  | network
  | redis
  | app
  deriving Repr, DecidableEq

/-- JavaScript truthiness of a `string | null` value: `null` and `""` are
falsy. -/
def truthyStr : Option String → Bool
  | none => false
  | some s => !(s == "")

/-- JavaScript truthiness of a `number | null` value: `null` and `0` are
falsy (`NaN` does not arise in the embedded code paths). -/
def truthyNum : Option Int → Bool
  | none => false
  | some n => !(n == 0)

/-- `TokenInfo` from `src/lib/token-info.ts`: a bearer token and an absolute
expiry timestamp, each possibly `null`. -/
structure TokenInfo where
  token : Option String := none
  expire : Option Int := none
  deriving Repr, DecidableEq

/-- `new TokenInfo()`: both fields `null`. -/
def TokenInfo.empty : TokenInfo := ⟨none, none⟩

/-- `TokenInfo.isValid()`:
`if (!this.token || !this.expire) return false; return Date.now() < this.expire`.
The current time is passed explicitly. -/
def TokenInfo.isValid (t : TokenInfo) (now : Int) : Bool :=
  if !(truthyStr t.token) || !(truthyNum t.expire) then
    false
  else
    decide (now < t.expire.getD 0)

/-- Classification of a string stored in Redis under the token key, by how
`TokenInfo.fromRedis` consumes it: the empty string (falsy, so the
`if (!json)` branch treats it like an absent key), a non-empty string on which
`JSON.parse` throws, or a parsed JSON object whose `token` / `expire`
properties are present or `undefined`. -/
inductive RVal
  | emptyStr
  | corrupt (s : String)
  | jsonObj (token : Option String) (expire : Option Int)
  deriving Repr, DecidableEq

/-- The Redis store as seen through the single key `token_info` (the only key
the program uses), plus failure flags for each client operation. -/
structure RedisStore where
  val : Option RVal := none
  connFails : Bool := false
  getFails : Bool := false
  delFails : Bool := false
  setFails : Bool := false
  deriving Repr, DecidableEq

/-- `TokenInfo.fromRedis` from `src/lib/token-info.ts`: get the stored string;
an absent or falsy (empty) value yields an empty `TokenInfo`; a string
`JSON.parse` rejects is logged, deleted, and an empty `TokenInfo` returned; a
parsed object populates the fields.  Client failures (connect, `get`, or the
`del` of a corrupt entry) surface as a `RedisError`.  Returns the credential
together with the store after the call. -/
def TokenInfo.fromRedis (store : RedisStore) :
    Except ErrKind (TokenInfo × RedisStore) :=
  if store.connFails || store.getFails then
    .error .redis
  else
    match store.val with
    | none => .ok (TokenInfo.empty, store)
    | some .emptyStr => .ok (TokenInfo.empty, store)
    | some (.corrupt _) =>
        if store.delFails then
          .error .redis
        else
          .ok (TokenInfo.empty, { store with val := none })
    | some (.jsonObj tok exp) => .ok (⟨tok, exp⟩, store)

/-- `TokenInfo.save` from `src/lib/token-info.ts`: connect, refuse a credential
with a falsy `token` or `expire` (`Cannot save invalid token`), then
`client.set(key, JSON.stringify({token, expire}), {EX: ttl})`.  Every failure
is rethrown as a `RedisError`; on success the store holds the serialized
pair. -/
def TokenInfo.save (t : TokenInfo) (store : RedisStore) :
    Except ErrKind Unit × RedisStore :=
  if store.connFails then
    (.error .redis, store)
  else if !(truthyStr t.token) || !(truthyNum t.expire) then
    (.error .redis, store)
  else if store.setFails then
    (.error .redis, store)
  else
    (.ok (), { store with val := some (.jsonObj t.token t.expire) })

/-- The round trip the spec describes: `save()` then immediately
`fromRedis()`, returning the loaded credential. -/
def TokenInfo.saveThenLoad (t : TokenInfo) (store : RedisStore) :
    Except ErrKind TokenInfo :=
  match t.save store with
  | (.error e, _) => .error e
  | (.ok _, store') =>
      match TokenInfo.fromRedis store' with
      | .error e => .error e
      | .ok (t', _) => .ok t'

/-- C1 (counterexample): the claim's biconditional fails at the concrete
credential `(token = "", expire = 1)` at time `0`: both fields are non-absent
and `0 < 1`, yet `isValid` returns `false` because the empty string is falsy
in JavaScript. -/
theorem C1_isValid_iff_cex :
    ¬ ((TokenInfo.mk (some "") (some 1)).isValid 0 = true ↔
        ((some "" : Option String) ≠ none ∧ (some 1 : Option Int) ≠ none ∧
          (0 : Int) < 1)) := by
  decide

/-- C1 (amended): `isValid` returns `true` iff the token is non-absent and
non-empty, the expiry is non-absent and non-zero, and `now < expire`. -/
theorem C1_isValid_iff (tok : Option String) (exp : Option Int) (now : Int) :
    (TokenInfo.mk tok exp).isValid now = true ↔
      (∃ s, tok = some s ∧ s ≠ "") ∧ (∃ e, exp = some e ∧ e ≠ 0 ∧ now < e) := by
  cases tok with
  | none => simp [TokenInfo.isValid, truthyStr]
  | some s =>
    cases exp with
    | none => simp [TokenInfo.isValid, truthyNum]
    | some e =>
      by_cases hs : s = ""
      · subst hs
        simp [TokenInfo.isValid, truthyStr]
      · by_cases he : e = 0
        · subst he
          simp [TokenInfo.isValid, truthyStr, truthyNum, hs]
        · constructor
          · intro h
            refine ⟨⟨s, rfl, hs⟩, ⟨e, rfl, he, ?_⟩⟩
            by_contra hlt
            simp [TokenInfo.isValid, truthyStr, truthyNum, hs, he, hlt] at h
          · rintro ⟨⟨s', hs', _⟩, ⟨e', he', _, hlt⟩⟩
            cases hs'
            cases he'
            simp [TokenInfo.isValid, truthyStr, truthyNum, hs, he, hlt]

/-- Truthiness of an optional string unfolds to presence of a non-empty
string. -/
theorem truthyStr_eq_true {o : Option String} :
    truthyStr o = true ↔ ∃ s, o = some s ∧ s ≠ "" := by
  cases o with
  | none => simp [truthyStr]
  | some s => simp [truthyStr]

/-- Truthiness of an optional number unfolds to presence of a non-zero
value. -/
theorem truthyNum_eq_true {o : Option Int} :
    truthyNum o = true ↔ ∃ n, o = some n ∧ n ≠ 0 := by
  cases o with
  | none => simp [truthyNum]
  | some n => simp [truthyNum]

/-- C2 (counterexample): the empty string is a stored value `JSON.parse`
rejects, but `fromRedis` takes the falsy `if (!json)` branch on it: it still
returns an empty credential without raising, yet leaves the corrupted entry
in the store instead of removing it. -/
theorem C2_fromRedis_corrupt_cex :
    TokenInfo.fromRedis { val := some .emptyStr } =
      .ok (TokenInfo.empty, { val := some RVal.emptyStr }) ∧
    ({ val := some RVal.emptyStr : RedisStore }).val ≠ none := by
  exact ⟨rfl, by simp⟩

/-- C2 (amended): for every stored value that is non-empty and not parseable
as JSON, when the store's `get` and `del` operations succeed, `fromRedis`
returns an empty credential without raising and removes the corrupted entry;
an empty stored string is instead treated as an absent credential and left in
place. -/
theorem C2_fromRedis_corrupt (s : String) (store : RedisStore)
    (hc : store.connFails = false) (hg : store.getFails = false)
    (hd : store.delFails = false) (hv : store.val = some (.corrupt s)) :
    TokenInfo.fromRedis store = .ok (TokenInfo.empty, { store with val := none }) := by
  simp [TokenInfo.fromRedis, hc, hg, hd, hv]

/-- Witness for C2: a concrete corrupted entry is discarded and removed. -/
theorem C2_fromRedis_corrupt_witness :
    TokenInfo.fromRedis { val := some (.corrupt "x") } =
      .ok (TokenInfo.empty, { val := none }) :=
  C2_fromRedis_corrupt "x" { val := some (.corrupt "x") } rfl rfl rfl rfl

/-- C8 (counterexample): the credential `(token = "", expire = 5)` has both
fields present, yet persisting it fails (`save` refuses the falsy empty
token), so save-then-load does not return the saved pair. -/
theorem C8_roundTrip_cex :
    TokenInfo.saveThenLoad ⟨some "", some 5⟩ { } = .error .redis ∧
    ((some "" : Option String) ≠ none ∧ (some 5 : Option Int) ≠ none) := by
  exact ⟨rfl, by simp⟩

/-- C8 (amended): for every credential whose token is present and non-empty
and whose expiry is present and non-zero, when the store operations succeed,
`save()` followed immediately by `fromRedis()` returns an equal
`(token, expire)` pair. -/
theorem C8_save_fromRedis_roundTrip (t : TokenInfo) (store : RedisStore)
    (hc : store.connFails = false) (hs : store.setFails = false)
    (hg : store.getFails = false)
    (ht : truthyStr t.token = true) (he : truthyNum t.expire = true) :
    TokenInfo.saveThenLoad t store = .ok ⟨t.token, t.expire⟩ := by
  simp [TokenInfo.saveThenLoad, TokenInfo.save, TokenInfo.fromRedis,
    hc, hs, hg, ht, he]

/-- Witness for C8: a concrete round trip. -/
theorem C8_save_fromRedis_roundTrip_witness :
    TokenInfo.saveThenLoad ⟨some "a", some 5⟩ { } = .ok ⟨some "a", some 5⟩ :=
  C8_save_fromRedis_roundTrip ⟨some "a", some 5⟩ { } rfl rfl rfl rfl rfl

/-- C10: `save` raises and leaves the store untouched whenever `token` or
`expire` is absent; and whenever a `save` call does change the store, the call
succeeded and the value written is a JSON object carrying both a non-empty
token and a non-zero expiry. -/
theorem C10_save_guard_invariant (t : TokenInfo) (store st' : RedisStore)
    (res : Except ErrKind Unit) (hrun : t.save store = (res, st')) :
    ((t.token = none ∨ t.expire = none) → res = .error .redis ∧ st' = store) ∧
    (st' ≠ store →
      res = .ok () ∧ truthyStr t.token = true ∧ truthyNum t.expire = true ∧
        st'.val = some (.jsonObj t.token t.expire)) := by
  unfold TokenInfo.save at hrun
  by_cases hcf : store.connFails
  · simp [hcf] at hrun
    constructor
    · intro _
      exact ⟨hrun.1.symm, hrun.2.symm⟩
    · intro hne
      exact absurd hrun.2.symm hne
  · by_cases htr : !(truthyStr t.token) || !(truthyNum t.expire)
    · simp [hcf, htr] at hrun
      constructor
      · intro _
        exact ⟨hrun.1.symm, hrun.2.symm⟩
      · intro hne
        exact absurd hrun.2.symm hne
    · simp [hcf, htr] at hrun
      simp only [Bool.or_eq_true, Bool.not_eq_true'] at htr
      push_neg at htr
      constructor
      · rintro (hn | hn) <;> simp [hn, truthyStr, truthyNum] at htr
      · intro _
        by_cases hsf : store.setFails
        · simp [hsf] at hrun
          exact absurd hrun.2.symm ‹_ ≠ _›
        · simp [hsf] at hrun
          refine ⟨hrun.1.symm, ?_, ?_, ?_⟩
          · simpa using htr.1
          · simpa using htr.2
          · rw [← hrun.2]

/-- Witness for C10: saving a credential with an absent token fails and
writes nothing. -/
theorem C10_save_guard_invariant_witness :
    (((TokenInfo.mk none (some 5)).token = none ∨
        (TokenInfo.mk none (some 5)).expire = none) →
      (Except.error ErrKind.redis : Except ErrKind Unit) = .error .redis ∧
        ({ } : RedisStore) = { }) ∧
    (({ } : RedisStore) ≠ { } →
      (Except.error ErrKind.redis : Except ErrKind Unit) = .ok () ∧
        truthyStr (TokenInfo.mk none (some 5)).token = true ∧
        truthyNum (TokenInfo.mk none (some 5)).expire = true ∧
        ({ } : RedisStore).val =
          some (.jsonObj (TokenInfo.mk none (some 5)).token
            (TokenInfo.mk none (some 5)).expire)) :=
  C10_save_guard_invariant ⟨none, some 5⟩ { } { } (.error .redis) rfl

/-- One response of the WeChat QR long-poll endpoint as `pollWxCode`
(`src/lib/wechat-utils.ts`) consumes it: either the request resolves and the
two regexes `wx_errcode=(\d+)` and `wx_code='...'` extract an optional numeric
status and an optional one-time code, or the request throws. -/
inductive PollResp
  | resp (errcode : Option Nat) (code : Option String)
  | fail
  deriving Repr, DecidableEq

/-- The three-way signal `pollWxCode` reads out of one response, mirroring the
`if/else if` chain: status 405 with a captured code means scanned; status 403
means the QR code expired; everything else — status 404, a 405 without a
captured code, any unexpected status, a response with no status, or a
transport failure (caught, logged, longer backoff) — means keep waiting. -/
inductive PollSignal
  | scanned (code : String)
  | expired
  | waiting
  deriving Repr, DecidableEq

/-- Classify one poll response, following the source's `if/else if` chain:
405 with a captured code returns it, 404 prints a dot and waits, 403 is
expiry, any other (or missing) status is logged and falls through to
waiting. -/
def pollClassify : PollResp → PollSignal
  | .fail => .waiting
  | .resp errcode code =>
      if errcode = some 405 then
        match code with
        | some c => .scanned c
        | none => .waiting
      else if errcode = some 403 then
        .expired
      else
        .waiting

/-- `maxPolls` from `pollWxCode`: at most 300 attempts (≈ 5 minutes). -/
def maxPolls : Nat := 300

/-- The `while (polls < maxPolls)` loop of `pollWxCode`, with `polls` the
number of status requests already issued and `fuel` the remaining allowance;
`env k` is the response to the `k`-th status request.  Returns the result
together with the number of status requests issued. -/
def pollLoop (env : Nat → PollResp) : Nat → Nat → Option String × Nat
  | polls, 0 => (none, polls)
  | polls, fuel + 1 =>
      match pollClassify (env (polls + 1)) with
      | .scanned c => (some c, polls + 1)
      | .expired => (none, polls + 1)
      | .waiting => pollLoop env (polls + 1) fuel

/-- `pollWxCode` from `src/lib/wechat-utils.ts`, for a non-empty uuid (the
only way it is called): run the bounded polling loop; on exhausting the cap
it returns `null`. -/
def pollWxCode (env : Nat → PollResp) : Option String × Nat :=
  pollLoop env 0 maxPolls

/-- Behaviour of the polling loop, for any starting count and fuel: the final
count moves forward by at least one (when there is fuel) and at most `fuel`
requests; a returned code means the final request was a scan signal; `null`
means the final request was an expiry signal or the fuel ran out; and every
strictly earlier request was a non-terminal (waiting) signal. -/
theorem pollLoop_spec (env : Nat → PollResp) (fuel : Nat) :
    ∀ polls : Nat,
      polls ≤ (pollLoop env polls fuel).2 ∧
      (pollLoop env polls fuel).2 ≤ polls + fuel ∧
      (0 < fuel → polls < (pollLoop env polls fuel).2) ∧
      (∀ c, (pollLoop env polls fuel).1 = some c →
          pollClassify (env (pollLoop env polls fuel).2) = .scanned c) ∧
      ((pollLoop env polls fuel).1 = none →
          pollClassify (env (pollLoop env polls fuel).2) = .expired ∨
          (pollLoop env polls fuel).2 = polls + fuel) ∧
      (∀ k, polls < k → k < (pollLoop env polls fuel).2 →
          pollClassify (env k) = .waiting) := by
  induction fuel with
  | zero =>
    intro polls
    simp only [pollLoop]
    refine ⟨Nat.le_refl _, by omega, by omega, by simp, by simp, ?_⟩
    intro k hk1 hk2
    omega
  | succ fuel ih =>
    intro polls
    cases hsig : pollClassify (env (polls + 1)) with
    | scanned c =>
      refine ⟨?_, ?_, ?_, ?_, ?_, ?_⟩ <;>
        simp_all [pollLoop, hsig] <;> omega
    | expired =>
      refine ⟨?_, ?_, ?_, ?_, ?_, ?_⟩ <;>
        simp_all [pollLoop, hsig] <;> omega
    | waiting =>
      have hrec : pollLoop env polls (fuel + 1) = pollLoop env (polls + 1) fuel := by
        simp [pollLoop, hsig]
      obtain ⟨h1, h2, _, h4, h5, h6⟩ := ih (polls + 1)
      rw [hrec]
      refine ⟨by omega, by omega, by omega, h4, ?_, ?_⟩
      · intro hn
        rcases h5 hn with h | h
        · exact Or.inl h
        · exact Or.inr (by omega)
      · intro k hk1 hk2
        rcases Nat.lt_or_ge (polls + 1) k with h | h
        · exact h6 k h hk2
        · have : k = polls + 1 := by omega
          subst this
          exact hsig

/-- C4: with the status endpoint answering "still waiting" (404) on the first
three polls and "scanned" (405) with code "abc" on the fourth, `pollWxCode`
returns "abc" after exactly 4 status requests; with "expired" (403) on the
first poll it returns `null` after exactly 1 status request. -/
theorem C4_pollWxCode_scenarios :
    pollWxCode (fun k => if k ≤ 3 then .resp (some 404) none
      else .resp (some 405) (some "abc")) = (some "abc", 4) ∧
    pollWxCode (fun _ => .resp (some 403) none) = (none, 1) := by
  exact ⟨rfl, rfl⟩

/-- C9: for every sequence of endpoint responses, `pollWxCode` issues between
1 and 300 status requests and terminates; a returned code means the last
request was a scan signal, `null` means the last request signalled expiry or
the 300-attempt cap was reached, every earlier request carried a non-terminal
signal, and transport failures, unexpected status codes, missing status codes
and a 405 without a captured code are all classified as "still waiting". -/
theorem C9_pollWxCode_bounded (env : Nat → PollResp) :
    1 ≤ (pollWxCode env).2 ∧ (pollWxCode env).2 ≤ 300 ∧
    (∀ c, (pollWxCode env).1 = some c →
        pollClassify (env (pollWxCode env).2) = .scanned c) ∧
    ((pollWxCode env).1 = none →
        pollClassify (env (pollWxCode env).2) = .expired ∨
        (pollWxCode env).2 = 300) ∧
    (∀ k, 1 ≤ k → k < (pollWxCode env).2 → pollClassify (env k) = .waiting) ∧
    pollClassify .fail = .waiting ∧
    (∀ e c, e ≠ 405 → e ≠ 403 → pollClassify (.resp (some e) c) = .waiting) ∧
    (∀ c, pollClassify (.resp none c) = .waiting) ∧
    pollClassify (.resp (some 405) none) = .waiting := by
  obtain ⟨h1, h2, h3, h4, h5, h6⟩ := pollLoop_spec env maxPolls 0
  have hm : (0 : Nat) < maxPolls := by decide
  refine ⟨h3 hm, ?_, h4, ?_, ?_, rfl, ?_, ?_, ?_⟩
  · simpa [maxPolls] using h2
  · intro hn
    rcases h5 hn with h | h
    · exact Or.inl h
    · exact Or.inr (by simpa [maxPolls] using h)
  · intro k hk1 hk2
    exact h6 k (by omega) hk2
  · intro e c h405 h403
    simp [pollClassify, h405, h403]
  · intro c
    simp [pollClassify]
  · rfl

/-- A `cron` `CronJob` as the scheduler observes it: only its next execution
date matters; `none` models both "no next execution time" and a throwing
`nextDate()` call, which `getSchedulerStatus` treats alike. -/
structure CronJob where
  nextDate : Option Int
  deriving Repr, DecidableEq

/-- The module-level scheduler state of `src/lib/scheduler.ts`: the
`checkinJob` variable, `null` when no job exists. -/
def SchedState := Option CronJob

/-- `startScheduler`: a no-op (warn and return) when `checkinJob` is already
set; otherwise construct one `CronJob` on the daily pattern and start it.
`d` is the next fire time the cron library computes for the pattern; the
returned `Bool` records whether a new `CronJob` was constructed. -/
def startScheduler (s : SchedState) (d : Int) : SchedState × Bool :=
  match s with
  | some j => (some j, false)
  | none => (some ⟨some d⟩, true)

/-- `stopScheduler`: stop the job if one exists and clear the reference; in
every case the state ends with no job. -/
def stopScheduler (_ : SchedState) : SchedState :=
  none

/-- The record `getSchedulerStatus` returns. -/
structure SchedStatus where
  isRunning : Bool
  checkinJobStatus : Bool
  nextCheckinDate : Option Int
  deriving Repr, DecidableEq

/-- `getSchedulerStatus`: running with the next fire time when a job exists
and reports a next date; otherwise not running with no date, clearing a stale
job reference. -/
def getSchedulerStatus (s : SchedState) : SchedStatus × SchedState :=
  match s with
  | none => (⟨false, false, none⟩, none)
  | some j =>
      match j.nextDate with
      | some d => (⟨true, true, some d⟩, some j)
      | none => (⟨false, false, none⟩, none)

/-- C6: while a job is already running, `startScheduler` constructs no second
cron job and leaves the state unchanged; and after `stopScheduler`, the
status reports not running with no next fire time. -/
theorem C6_scheduler_idempotent_stop (s : SchedState) (j : CronJob) (d : Int)
    (h : s = some j) :
    startScheduler s d = (s, false) ∧
    (getSchedulerStatus (stopScheduler s)).1 = ⟨false, false, none⟩ := by
  subst h
  exact ⟨rfl, rfl⟩

/-- Witness for C6 at a concrete running state. -/
theorem C6_scheduler_idempotent_stop_witness :
    startScheduler (some ⟨some 7⟩) 7 = (some ⟨some 7⟩, false) ∧
    (getSchedulerStatus (stopScheduler (some ⟨some 7⟩))).1 = ⟨false, false, none⟩ :=
  C6_scheduler_idempotent_stop (some ⟨some 7⟩) ⟨some 7⟩ 7 rfl

/-- Environment of one notifier call (`src/lib/email-utils.ts`): the
`EMAIL_ENABLED` flag and which of the fallible steps inside the `try` block
fail — creating the transporter / reading the config, writing the temporary
QR file, `transporter.sendMail`, and the cleanup `fs.unlink`. -/
structure EmailEnv where
  enabled : Bool
  configThrows : Bool
  writeFails : Bool
  sendFails : Bool
  unlinkFails : Bool
  deriving Repr, DecidableEq

/-- What a notifier call does from the caller's point of view. -/
inductive CallOutcome
  | ok
  | raised (e : ErrKind)
  deriving Repr, DecidableEq

/-- The fallible pipeline inside `sendEmailWithQRCode`'s `try`: create the
transporter, write the temporary QR file, send the mail; a failing `unlink`
is caught by its own inner `try` and only logged. -/
def qrMailPipeline (env : EmailEnv) : Except Unit Unit :=
  if env.configThrows then .error ()
  else if env.writeFails then .error ()
  else if env.sendFails then .error ()
  else .ok ()

/-- The fallible pipeline inside `sendCheckinResult` / `sendTokenExpiredEmail`:
create the transporter and send the mail (the message bodies are built from
pure string operations that cannot throw). -/
def plainMailPipeline (env : EmailEnv) : Except Unit Unit :=
  if env.configThrows then .error ()
  else if env.sendFails then .error ()
  else .ok ()

/-- The source's blank test `!uuid || uuid.trim().length === 0`: a string
fails it exactly when it consists solely of whitespace (the empty string
included). -/
def isBlank (s : String) : Bool :=
  s.data.all Char.isWhitespace

/-- `sendEmailWithQRCode(uuid, qrBuffer)`: skip silently when email is
disabled; raise a `ValidationError` for a blank uuid or an empty buffer
(these checks run before the `try`); otherwise run the pipeline and swallow
every failure (log, print the fallback URL, do not rethrow).  `qrLen` is the
buffer's length. -/
def sendEmailWithQRCode (env : EmailEnv) (uuid : String) (qrLen : Nat) :
    CallOutcome :=
  if !env.enabled then .ok
  else if isBlank uuid then .raised .validation
  else if qrLen = 0 then .raised .validation
  else
    match qrMailPipeline env with
    | .ok _ => .ok
    | .error _ => .ok

/-- `sendCheckinResult(result)`: skip when disabled, otherwise run the
pipeline and swallow every failure. -/
def sendCheckinResult (env : EmailEnv) : CallOutcome :=
  if !env.enabled then .ok
  else
    match plainMailPipeline env with
    | .ok _ => .ok
    | .error _ => .ok

/-- `sendTokenExpiredEmail(reauthUrl?, isExpiringSoon?)`: skip when disabled,
otherwise build the notification (a pure function of the two arguments), run
the pipeline and swallow every failure. -/
def sendTokenExpiredEmail (env : EmailEnv) (_reauthUrl : Option String)
    (_isExpiringSoon : Bool) : CallOutcome :=
  if !env.enabled then .ok
  else
    match plainMailPipeline env with
    | .ok _ => .ok
    | .error _ => .ok

/-- C7 (counterexample): with email enabled, `sendEmailWithQRCode` called
with an empty UUID raises a `ValidationError` to the caller (the check runs
before the `try/catch`). -/
theorem C7_notifiers_cex :
    sendEmailWithQRCode ⟨true, false, false, false, false⟩ "" 3 =
      .raised .validation := by
  exact rfl

/-- C7 (amended): `sendCheckinResult` and `sendTokenExpiredEmail` never raise
for any input and any mail-transport failure; `sendEmailWithQRCode` also
never raises — including under every transport failure — provided that, when
email is enabled, the UUID is non-blank and the QR buffer non-empty; with
email enabled it raises a `ValidationError` on an empty UUID or empty
buffer. -/
theorem C7_notifiers_no_raise (env : EmailEnv) (uuid : String) (qrLen : Nat)
    (url : Option String) (soon : Bool)
    (hq : env.enabled = true → isBlank uuid = false ∧ qrLen ≠ 0) :
    sendCheckinResult env = .ok ∧
    sendTokenExpiredEmail env url soon = .ok ∧
    sendEmailWithQRCode env uuid qrLen = .ok := by
  refine ⟨?_, ?_, ?_⟩
  · unfold sendCheckinResult
    by_cases he : env.enabled <;> simp [he] <;>
      cases plainMailPipeline env <;> simp
  · unfold sendTokenExpiredEmail
    by_cases he : env.enabled <;> simp [he] <;>
      cases plainMailPipeline env <;> simp
  · unfold sendEmailWithQRCode
    by_cases he : env.enabled
    · obtain ⟨hu, hb⟩ := hq he
      simp [he, hu, hb]
      cases qrMailPipeline env <;> simp
    · simp [he]

/-- Witness for C7: with email enabled, a sane QR request and every pipeline
step failing, none of the three notifiers raises. -/
theorem C7_notifiers_no_raise_witness :
    sendCheckinResult ⟨true, true, true, true, true⟩ = .ok ∧
    sendTokenExpiredEmail ⟨true, true, true, true, true⟩ none false = .ok ∧
    sendEmailWithQRCode ⟨true, true, true, true, true⟩ "u" 1 = .ok :=
  C7_notifiers_no_raise ⟨true, true, true, true, true⟩ "u" 1 none false
    (fun _ => ⟨by decide, by decide⟩)

/-- The raw body of the token-exchange endpoint as `fetchTokenByWxCode`
(`src/lib/wechat-utils.ts`) reads it: `response?.Data?.Token` and
`response?.Data?.Expire`, each possibly missing. -/
structure RawTokenResp where
  tok : Option String
  exp : Option Int
  deriving Repr, DecidableEq

/-- `fetchTokenByWxCode` from `src/lib/wechat-utils.ts` applied to the
endpoint's outcome: a transport failure propagates; a body with a falsy
token or expiry is the hard failure `INVALID_TOKEN_RESPONSE`; otherwise the
token is prefixed with `Bearer ` and both fields are returned. -/
def fetchTokenByWxCodeLib (r : Except Unit RawTokenResp) :
    Except ErrKind TokenInfo :=
  match r with
  | .error _ => .error .network
  | .ok raw =>
      if !(truthyStr raw.tok) || !(truthyNum raw.exp) then
        .error .app
      else
        .ok ⟨some ("Bearer " ++ raw.tok.getD ""), raw.exp⟩

/-- One iteration of the QR login loop in `TokenInfo.get_ensureLoggedIn`:
the outcomes the environment supplies to each step.  `qrLen` is the QR-buffer
fetch (a failure falls back to an empty buffer and only affects the
notifier, whose errors are caught); `saveStore` is the store state the
iteration's `save()` call runs against. -/
structure LoginIter where
  uuidRes : Except Unit String
  qrLen : Except Unit Nat
  pollRes : Except Unit (Option String)
  exchangeRes : Except Unit RawTokenResp
  saveStore : RedisStore

/-- Outcome of the login flow under a given fuel: a credential, a raised
error, or still retrying (the source loop is unbounded). -/
inductive LoginResult
  | got (t : TokenInfo)
  | err (e : ErrKind)
  | spin
  deriving Repr, DecidableEq

/-- The `while (true)` retry loop of `get_ensureLoggedIn`: a failed UUID
fetch, an expired QR code, a failed code-for-token exchange and a failed
`save()` each log, back off and continue; the QR fetch, console display and
email steps are each wrapped in their own `try` and cannot alter control
flow; an error escaping `pollWxCode` leaves the loop and is rethrown by the
outer catch.  A successful exchange followed by a successful `save()`
returns the fresh credential. -/
def loginLoop (env : Nat → LoginIter) : Nat → Nat → LoginResult
  | _, 0 => .spin
  | i, fuel + 1 =>
      match (env i).uuidRes with
      | .error _ => loginLoop env (i + 1) fuel
      | .ok _ =>
          match (env i).pollRes with
          | .error _ => .err .authentication
          | .ok none => loginLoop env (i + 1) fuel
          | .ok (some _) =>
              match fetchTokenByWxCodeLib (env i).exchangeRes with
              | .error _ => loginLoop env (i + 1) fuel
              | .ok t =>
                  match (t.save (env i).saveStore).1 with
                  | .error _ => loginLoop env (i + 1) fuel
                  | .ok _ => .got t

/-- `TokenInfo.get_ensureLoggedIn` from `src/lib/token-info.ts`: load the
cached credential (a `RedisError` propagates), return it when it is valid
now, and otherwise run the QR login retry loop. -/
def get_ensureLoggedIn (store0 : RedisStore) (now : Int)
    (env : Nat → LoginIter) (fuel : Nat) : LoginResult :=
  match TokenInfo.fromRedis store0 with
  | .error e => .err e
  | .ok (t0, _) =>
      if t0.isValid now then .got t0
      else loginLoop env 0 fuel

/-- A successful `save` implies both fields were truthy. -/
theorem save_ok_truthy {t : TokenInfo} {st : RedisStore} {u : Unit}
    (h : (t.save st).1 = .ok u) :
    truthyStr t.token = true ∧ truthyNum t.expire = true := by
  unfold TokenInfo.save at h
  cases ha : truthyStr t.token <;> cases hb : truthyNum t.expire <;>
    simp [ha, hb] at h ⊢

/-- A valid credential has truthy fields. -/
theorem isValid_truthy {t : TokenInfo} {now : Int}
    (h : t.isValid now = true) :
    truthyStr t.token = true ∧ truthyNum t.expire = true := by
  unfold TokenInfo.isValid at h
  cases ha : truthyStr t.token <;> cases hb : truthyNum t.expire <;>
    simp [ha, hb] at h ⊢

/-- Any credential the retry loop returns has truthy fields (it passed both
the exchange validation and the `save()` guard). -/
theorem loginLoop_got_truthy (env : Nat → LoginIter) (fuel : Nat) :
    ∀ i t, loginLoop env i fuel = .got t →
      truthyStr t.token = true ∧ truthyNum t.expire = true := by
  induction fuel with
  | zero =>
    intro i t h
    simp [loginLoop] at h
  | succ fuel ih =>
    intro i t h
    unfold loginLoop at h
    cases hu : (env i).uuidRes with
    | error e =>
      rw [hu] at h
      exact ih (i + 1) t h
    | ok u =>
      cases hp : (env i).pollRes with
      | error e =>
        simp [hu, hp] at h
      | ok oc =>
        cases oc with
        | none =>
          simp only [hu, hp] at h
          exact ih (i + 1) t h
        | some wx =>
          cases hx : fetchTokenByWxCodeLib (env i).exchangeRes with
          | error e =>
            simp only [hu, hp, hx] at h
            exact ih (i + 1) t h
          | ok t' =>
            cases hs : (t'.save (env i).saveStore).1 with
            | error e =>
              simp only [hu, hp, hx, hs] at h
              exact ih (i + 1) t h
            | ok u' =>
              simp only [hu, hp, hx, hs, LoginResult.got.injEq] at h
              subst h
              exact save_ok_truthy hs

/-- C5 (counterexample): with an empty cache and an identity provider whose
token exchange reports an expiry already in the past (`expire = 1` at time
`now = 5`), the flow returns that credential, which fails `isValid` at the
moment of return: the code validates only presence of the two fields, never
that the fresh expiry lies in the future. -/
theorem C5_ensureLoggedIn_cex :
    get_ensureLoggedIn { } 5
      (fun _ => ⟨.ok "u", .ok 1, .ok (some "w"), .ok ⟨some "x", some 1⟩, { }⟩) 1 =
      .got ⟨some "Bearer x", some 1⟩ ∧
    (TokenInfo.mk (some "Bearer x") (some 1)).isValid 5 = false := by
  exact ⟨rfl, rfl⟩

/-- C5 (amended): whenever `get_ensureLoggedIn` returns a credential, that
credential has both token and expire present and truthy; and when the cached
credential is valid at the current time, the returned credential is exactly
that cached one (hence valid at the moment of return).  A freshly exchanged
credential's expiry is whatever the provider reported and may already lie in
the past. -/
theorem C5_ensureLoggedIn_partial (store0 : RedisStore) (now : Int)
    (env : Nat → LoginIter) (fuel : Nat) (t : TokenInfo)
    (h : get_ensureLoggedIn store0 now env fuel = .got t) :
    truthyStr t.token = true ∧ truthyNum t.expire = true ∧
    (∀ t0 st, TokenInfo.fromRedis store0 = .ok (t0, st) →
        t0.isValid now = true → t = t0 ∧ t.isValid now = true) := by
  unfold get_ensureLoggedIn at h
  cases hr : TokenInfo.fromRedis store0 with
  | error e =>
    rw [hr] at h
    simp at h
  | ok p =>
    obtain ⟨t0, st⟩ := p
    rw [hr] at h
    by_cases hv : t0.isValid now
    · simp [hv] at h
      subst h
      refine ⟨(isValid_truthy hv).1, (isValid_truthy hv).2, ?_⟩
      intro t1 st1 hr1 _
      simp at hr1
      exact ⟨hr1.1, hv⟩
    · simp [hv] at h
      obtain ⟨h1, h2⟩ := loginLoop_got_truthy env fuel 0 t h
      refine ⟨h1, h2, ?_⟩
      intro t1 st1 hr1 hv1
      simp at hr1
      rw [hr1.1] at hv
      exact absurd hv1 (by simpa using hv)

/-- Witness for C5: a valid cached credential is returned unchanged and
valid. -/
theorem C5_ensureLoggedIn_partial_witness :
    truthyStr (some "a") = true ∧ truthyNum (some 10) = true ∧
    (∀ t0 st, TokenInfo.fromRedis { val := some (.jsonObj (some "a") (some 10)) } =
        .ok (t0, st) → t0.isValid 5 = true →
      (TokenInfo.mk (some "a") (some 10)) = t0 ∧
        (TokenInfo.mk (some "a") (some 10)).isValid 5 = true) :=
  C5_ensureLoggedIn_partial { val := some (.jsonObj (some "a") (some 10)) } 5
    (fun _ => ⟨.error (), .error (), .error (), .error (), { }⟩) 0
    ⟨some "a", some 10⟩ rfl

/-- A location (`src/types/index.ts`), with both coordinates in fixed-point
micro-degrees (one unit = 10⁻⁶ degree).  This is exact for every coordinate
the program contains and for any coordinate with at most six decimal places;
on these, JavaScript's shortest-round-trip number printing coincides with
exact decimal printing. -/
structure Location where
  latitude : Int
  longitude : Int
  deriving Repr, DecidableEq

/-- `THREAD_ID` from `src/types/index.ts`. -/
def THREAD_ID : Nat := 163231508

/-- `DEFAULT_LOCATION` from `src/types/index.ts`:
`{latitude: 28.423147, longitude: 117.976543}`. -/
def DEFAULT_LOCATION : Location := ⟨28423147, 117976543⟩

/-- `validateLocation` from `src/lib/checkin-utils.ts`: latitude must lie in
`[-90, 90]` and longitude in `[-180, 180]` (boundaries inclusive), otherwise a
`ValidationError` naming the offending field. -/
def validateLocation (loc : Location) : Except String Unit :=
  if loc.latitude < -90 * 1000000 ∨ 90 * 1000000 < loc.latitude then
    .error "latitude"
  else if loc.longitude < -180 * 1000000 ∨ 180 * 1000000 < loc.longitude then
    .error "longitude"
  else
    .ok ()

/-- Drop trailing `'0'` characters. -/
def dropTrailingZeros (l : List Char) : List Char :=
  (l.reverse.dropWhile (· == '0')).reverse

/-- The six fractional digits of a micro-degree remainder, with leading
zeros. -/
def fracDigits (fp : Nat) : List Char :=
  let ds := (toString fp).data
  List.replicate (6 - ds.length) '0' ++ ds

/-- Decimal rendering of a fixed-point micro-degree number, as JavaScript
prints it: no fractional part when it is zero, and no trailing zeros. -/
def decString (micro : Int) : String :=
  let sign := if micro < 0 then "-" else ""
  let a := micro.natAbs
  let ip := a / 1000000
  let fp := a % 1000000
  if fp = 0 then
    sign ++ toString ip
  else
    sign ++ toString ip ++ "." ++ String.mk (dropTrailingZeros (fracDigits fp))

/-- `JSON.stringify` of a `Location` value (field insertion order `latitude`,
`longitude`, as in the `Location` type and every literal of the program). -/
def jsonLocation (loc : Location) : String :=
  "\x7b\"latitude\":" ++ decString loc.latitude ++
    ",\"longitude\":" ++ decString loc.longitude ++ "\x7d"

/-- JavaScript `String.prototype.trim`. -/
def jsTrim (s : String) : String :=
  String.mk (((s.data.dropWhile Char.isWhitespace).reverse.dropWhile
    Char.isWhitespace).reverse)

/-- The fixed human-readable place name of the populated record field. -/
def placeName : String := "上饶市信州区•上饶师范学院"

/-- `CheckInRecordField` from `src/types/index.ts`. -/
structure CheckInRecordField where
  FieldId : Nat
  Values : List String
  Texts : List String
  HasValue : Bool
  deriving Repr, DecidableEq

/-- `CheckInPayload` from `src/types/index.ts`. -/
structure CheckInPayload where
  Id : Nat
  ThreadId : Nat
  Signature : String
  RecordValues : List CheckInRecordField
  deriving Repr, DecidableEq

/-- `submitCheckIn` from `src/lib/checkin-utils.ts`, up to the payload handed
to the HTTP client: reject a missing token or a blank signature, fall back to
`DEFAULT_LOCATION` when no location is supplied, validate the coordinates,
then build the fixed two-field payload. -/
def submitCheckIn (token : String) (signature : String)
    (location : Option Location) : Except String CheckInPayload :=
  if token = "" then
    .error "token"
  else if isBlank signature then
    .error "signature"
  else
    let finalLocation := location.getD DEFAULT_LOCATION
    match validateLocation finalLocation with
    | .error f => .error f
    | .ok _ =>
        .ok
          { Id := 0
            ThreadId := THREAD_ID
            Signature := jsTrim signature
            RecordValues :=
              [⟨1, [], [], false⟩,
               ⟨2, [jsonLocation finalLocation], [placeName], true⟩] }

/-- C3: for every non-empty token, non-blank signature and valid
supplied-or-default location, the submission payload is exactly the fixed
two-field shape — field id 1 empty with `HasValue` `false`, field id 2 whose
`Values` is the single JSON encoding of the coordinates and whose `Texts` is
the fixed place name — it does not depend on the token, and the documented
concrete example evaluates to the documented strings. -/
theorem C3_submitCheckIn_payload (token signature : String)
    (loc : Option Location) (ht : token ≠ "") (hs : isBlank signature = false)
    (hv : validateLocation (loc.getD DEFAULT_LOCATION) = .ok ()) :
    submitCheckIn token signature loc =
      .ok
        { Id := 0
          ThreadId := THREAD_ID
          Signature := jsTrim signature
          RecordValues :=
            [⟨1, [], [], false⟩,
             ⟨2, [jsonLocation (loc.getD DEFAULT_LOCATION)], [placeName],
              true⟩] } ∧
    (∀ token', token' ≠ "" →
      submitCheckIn token' signature loc = submitCheckIn token signature loc) ∧
    submitCheckIn "tok" "Alice" none =
      .ok
        { Id := 0
          ThreadId := 163231508
          Signature := "Alice"
          RecordValues :=
            [⟨1, [], [], false⟩,
             ⟨2, ["\x7b\"latitude\":28.423147,\"longitude\":117.976543\x7d"],
              ["上饶市信州区•上饶师范学院"], true⟩] } := by
  refine ⟨?_, ?_, ?_⟩
  · simp [submitCheckIn, ht, hs, hv]
  · intro token' ht'
    simp [submitCheckIn, ht, ht', hs, hv]
  · rfl

/-- Witness for C3 at a concrete call. -/
theorem C3_submitCheckIn_payload_witness :
    submitCheckIn "t" "Alice" none =
      .ok
        { Id := 0
          ThreadId := THREAD_ID
          Signature := jsTrim "Alice"
          RecordValues :=
            [⟨1, [], [], false⟩,
             ⟨2, [jsonLocation ((none : Option Location).getD DEFAULT_LOCATION)],
              [placeName], true⟩] } ∧
    (∀ token', token' ≠ "" →
      submitCheckIn token' "Alice" none = submitCheckIn "t" "Alice" none) ∧
    submitCheckIn "tok" "Alice" none =
      .ok
        { Id := 0
          ThreadId := 163231508
          Signature := "Alice"
          RecordValues :=
            [⟨1, [], [], false⟩,
             ⟨2, ["\x7b\"latitude\":28.423147,\"longitude\":117.976543\x7d"],
              ["上饶市信州区•上饶师范学院"], true⟩] } :=
  C3_submitCheckIn_payload "t" "Alice" none (by decide) (by decide) rfl
